import Mathlib

/-!
# AWS credential resource of the Cloudability Terraform provider

A shallow embedding of `cloudability/resource_aws_credential.go`: the resource
schema, the two flatteners and the Create / Read / Delete handlers, together
with the properties of them stated by the specification.

Go values are modelled as follows.

* A Go `(value, error)` result is a pair whose error component is an
  `Option GoError` (`none` is Go's `nil` error); a `*Credential` is an
  `Option Credential` (`none` is the `nil` pointer).
* The vendor client is remote and stateful: every method takes the state of the
  remote service and returns the new one.  The handlers thread a `World`, which
  also records every vendor call that was made, in order.
* The attribute bag (`*schema.ResourceData`) is the local ID together with the
  attributes that are set, keyed by name and typed by the schema.
-/

set_option autoImplicit false

namespace Cloudability

/-! ## Errors and `strconv.Atoi` -/

/-- The two error kinds carried by a `*strconv.NumError`. -/
inductive NumErrKind where
  | ErrSyntax
  | ErrRange
  deriving DecidableEq, Repr

/-- A Go `error` value: a `*strconv.NumError`, or any other error (those the
vendor client returns), identified by its message. -/
inductive GoError where
  | NumError (Func : String) (Num : String) (Err : NumErrKind)
  | other (msg : String)
  deriving DecidableEq, Repr

/-- Largest `uint64`. -/
def maxUint64 : Nat := 2 ^ 64 - 1

/-- The digit loop of `strconv.ParseUint(s, 10, 64)`: a byte that is not a
decimal digit is a syntax error, an accumulator that leaves `uint64` is a range
error, reported at the digit where it happens. -/
def parseUintLoop : List Char → Nat → Nat × Option NumErrKind
  | [], n => (n, none)
  | c :: cs, n =>
    if !c.isDigit then (0, some NumErrKind.ErrSyntax)
    else if n ≥ maxUint64 / 10 + 1 then (maxUint64, some NumErrKind.ErrRange)
    else
      let n1 := n * 10 + (c.toNat - 48)
      if n1 > maxUint64 then (maxUint64, some NumErrKind.ErrRange)
      else parseUintLoop cs n1

/-- The function `strconv.ParseUint(s, 10, 64)` on the characters of `s`. -/
def ParseUint (s : List Char) : Nat × Option NumErrKind :=
  match s with
  | [] => (0, some NumErrKind.ErrSyntax)
  | _ => parseUintLoop s 0

/-- The function `strconv.ParseInt(s, 10, 0)` with a 64-bit `int`: an optional
sign, then `ParseUint`, then the clamp to the `int64` range. -/
def ParseInt (s : List Char) : Int × Option NumErrKind :=
  match s with
  | [] => (0, some NumErrKind.ErrSyntax)
  | c :: cs =>
    let neg := c == '-'
    let body := if c == '+' || c == '-' then cs else s
    match ParseUint body with
    | (_, some NumErrKind.ErrSyntax) => (0, some NumErrKind.ErrSyntax)
    | (un, _) =>
      if !neg && un ≥ 2 ^ 63 then ((2 : Int) ^ 63 - 1, some NumErrKind.ErrRange)
      else if neg && un > 2 ^ 63 then (-(2 : Int) ^ 63, some NumErrKind.ErrRange)
      else (if neg then -(un : Int) else (un : Int), none)

/-- The function `strconv.Atoi` (Go standard library, 64-bit `int`).  Its fast
path for short strings computes the same result as `ParseInt(s, 10, 0)`, which
is what is embedded; an error is a `*NumError` whose `Func` is `"Atoi"` and
whose `Num` is the input. -/
def Atoi (s : String) : Int × Option GoError :=
  match ParseInt s.toList with
  | (n, none) => (n, none)
  | (n, some k) => (n, some (GoError.NumError "Atoi" s k))

/-! ## Vendor SDK records and client -/

/-- A Go `map[string]interface{}` all of whose values are strings, as the list
of its entries. -/
abbrev GoMap := List (String × String)

/-- The assignment `m[k] = v`: replaces the value of an existing key, adds the
entry otherwise. -/
def GoMap.set (m : GoMap) (k v : String) : GoMap :=
  if m.any (fun p => p.1 == k) then m.map (fun p => if p.1 == k then (k, v) else p)
  else m ++ [(k, v)]

/-- The lookup `m[k]`, `none` when the key is absent. -/
def GoMap.get? (m : GoMap) (k : String) : Option String :=
  (m.find? (fun p => p.1 == k)).map (fun p => p.2)

/-- The keys of the map. -/
def GoMap.keys (m : GoMap) : List String := m.map (fun p => p.1)

/-- Modelled from the spec: the vendor SDK's `Verification` record (the SDK is
not part of the source tree); fields `State`, `LastVerificationAttemptedAt`,
`Message`, all strings. -/
structure Verification where
  State : String
  LastVerificationAttemptedAt : String
  Message : String
  deriving DecidableEq, Repr

/-- Modelled from the spec: the vendor SDK's `Authorization` record; fields
`Type`, `RoleName`, `ExternalId`, all strings (`Type` is written `Type_`). -/
structure Authorization where
  Type_ : String
  RoleName : String
  ExternalId : String
  deriving DecidableEq, Repr

/-- Modelled from the spec: the vendor SDK's `Credential` record with the
fields the handlers consume.  Every scalar field is a Go string, so an absent
parent account is the empty string. -/
structure Credential where
  Id : String
  VendorAccountName : String
  VendorAccountId : String
  VendorKey : String
  Verification : Verification
  Authorization : Authorization
  ParentAccountId : String
  CreatedAt : String
  deriving DecidableEq, Repr

/-- Modelled from the spec: the vendor client's `Vendors` endpoint, the four
calls the handlers make.  `σ` is the state of the remote service; each call
returns its Go results and the new state. -/
structure Vendors (σ : Type) where
  VerifyCredential : String → String → σ → (Option Credential × Option GoError) × σ
  NewCredential : String → String → String → σ → (Option Credential × Option GoError) × σ
  GetCredential : String → Int → σ → (Option Credential × Option GoError) × σ
  DeleteCredential : String → String → σ → Option GoError × σ

/-- A vendor call with its arguments. -/
inductive Call where
  | VerifyCredential (vendor accountId : String)
  | NewCredential (vendor accountId credentialType : String)
  | GetCredential (vendor : String) (id : Int)
  | DeleteCredential (vendor id : String)
  deriving DecidableEq, Repr

/-- The remote service's state and the vendor calls made so far, oldest
first. -/
structure World (σ : Type) where
  vendor : σ
  calls : List Call

/-! ## Attribute bag -/

/-- The value of an attribute: a string (`schema.TypeString`) or a nested set
given as a sequence of mappings (`schema.TypeSet`). -/
inductive AttrValue where
  | str (s : String)
  | set (items : List GoMap)
  deriving DecidableEq, Repr

/-- The attribute bag `*schema.ResourceData`: the local ID and the attributes
that are set.  The framework types every attribute by the schema, so string
attributes and nested-set attributes are kept apart. -/
structure ResourceData where
  id : String
  strings : String → Option String
  sets : String → Option (List GoMap)

/-- The method `d.Id()`. -/
def ResourceData.Id (d : ResourceData) : String := d.id

/-- The method `d.SetId(v)`. -/
def ResourceData.SetId (d : ResourceData) (v : String) : ResourceData :=
  { d with id := v }

/-- The expression `d.Get(key).(string)` on a string attribute: its value, the
zero value `""` when it is not set. -/
def ResourceData.GetString (d : ResourceData) (key : String) : String :=
  (d.strings key).getD ""

/-- The method `d.Set(key, value)` (its error result is discarded by every
caller here). -/
def ResourceData.Set (d : ResourceData) (key : String) (value : AttrValue) : ResourceData :=
  match value with
  | AttrValue.str s => { d with strings := fun k => if k = key then some s else d.strings k }
  | AttrValue.set l => { d with sets := fun k => if k = key then some l else d.sets k }

/-! ## Flatteners -/

/-- The function `flattenVerification`. -/
def flattenVerification (v : Verification) : List GoMap :=
  let m : GoMap := []
  let m := m.set "state" v.State
  let m := m.set "last_verification_attempted_at" v.LastVerificationAttemptedAt
  let m := m.set "message" v.Message
  [m]

/-- The function `flattenAuthorization`. -/
def flattenAuthorization (a : Authorization) : List GoMap :=
  let m : GoMap := []
  let m := m.set "type" a.Type_
  let m := m.set "role_name" a.RoleName
  let m := m.set "external_id" a.ExternalId
  [m]

/-! ## Handlers -/

/-- The handler `resourceAWSCredentialRead`: the returned error, the bag and
the world after the call. -/
def resourceAWSCredentialRead {σ : Type} (client : Vendors σ) (d : ResourceData)
    (w : World σ) : Option GoError × ResourceData × World σ :=
  match Atoi d.Id with
  | (_, some err) => (some err, d, w)
  | (id, none) =>
    match client.GetCredential "aws" id w.vendor with
    | ((credential, err), s) =>
      let w : World σ := { vendor := s, calls := w.calls ++ [Call.GetCredential "aws" id] }
      match err with
      | some e => (some e, d, w)
      | none =>
        match credential with
        | some credential =>
          let d := d.Set "vendor_account_name" (AttrValue.str credential.VendorAccountName)
          let d := d.Set "vendor_account_id" (AttrValue.str credential.VendorAccountId)
          let d := d.Set "vendor_key" (AttrValue.str credential.VendorKey)
          let d := d.Set "verification" (AttrValue.set (flattenVerification credential.Verification))
          let d := d.Set "authorization" (AttrValue.set (flattenAuthorization credential.Authorization))
          let d := d.Set "parent_account_id" (AttrValue.str credential.ParentAccountId)
          let d := d.Set "created_at" (AttrValue.str credential.CreatedAt)
          let d := d.SetId credential.Id
          (none, d, w)
        | none =>
          let d := d.SetId ""
          (none, d, w)

/-- The handler `resourceAWSCredentialCreate`. -/
def resourceAWSCredentialCreate {σ : Type} (client : Vendors σ) (d : ResourceData)
    (w : World σ) : Option GoError × ResourceData × World σ :=
  let vendorKey := d.GetString "vendor_key"
  let accountId := d.GetString "vendor_account_id"
  let parentAccountId := d.GetString "parent_account_id"
  match client.VerifyCredential vendorKey parentAccountId w.vendor with
  | (_, s) =>
    let w : World σ := { vendor := s, calls := w.calls ++ [Call.VerifyCredential vendorKey parentAccountId] }
    match client.NewCredential vendorKey accountId "aws_role" w.vendor with
    | ((_, err), s) =>
      let w : World σ := { vendor := s, calls := w.calls ++ [Call.NewCredential vendorKey accountId "aws_role"] }
      match err with
      | some e => (some e, d, w)
      | none => resourceAWSCredentialRead client d w

/-- The handler `resourceAWSCredentialDelete`. -/
def resourceAWSCredentialDelete {σ : Type} (client : Vendors σ) (d : ResourceData)
    (w : World σ) : Option GoError × ResourceData × World σ :=
  let id := d.Id
  let vendor := d.GetString "vendor_key"
  match client.DeleteCredential vendor id w.vendor with
  | (err, s) => (err, d, { vendor := s, calls := w.calls ++ [Call.DeleteCredential vendor id] })

/-! ## Resource schema -/

/-- The attribute types used by the schema (`schema.ValueType`). -/
inductive ValueType where
  | TypeString
  | TypeSet
  deriving DecidableEq, Repr

/-- One attribute description, `schema.Schema`, with the options the resource
uses; an option the source leaves out has Go's zero value (`false`, `0`, no
`Elem`).  `Elem` is the attribute map of the nested `&schema.Resource`. -/
inductive Schema where
  | mk (Type_ : ValueType) (Required : Bool) (Computed : Bool) (MaxItems : Nat)
      (Elem : Option (List (String × Schema))) (Description : String)

/-- The field `Type`. -/
def Schema.Type_ : Schema → ValueType
  | Schema.mk t _ _ _ _ _ => t

/-- The field `Required`. -/
def Schema.Required : Schema → Bool
  | Schema.mk _ r _ _ _ _ => r

/-- The field `Computed`. -/
def Schema.Computed : Schema → Bool
  | Schema.mk _ _ c _ _ _ => c

/-- The field `MaxItems`. -/
def Schema.MaxItems : Schema → Nat
  | Schema.mk _ _ _ m _ _ => m

/-- The field `Elem`. -/
def Schema.Elem : Schema → Option (List (String × Schema))
  | Schema.mk _ _ _ _ e _ => e

/-- The field `Description`. -/
def Schema.Description : Schema → String
  | Schema.mk _ _ _ _ _ s => s

/-- A `map[string]*schema.Schema` literal, entries in source order. -/
abbrev SchemaMap := List (String × Schema)

/-- The lookup of an attribute by name. -/
def SchemaMap.lookup (m : SchemaMap) (k : String) : Option Schema :=
  (m.find? (fun p => p.1 == k)).map (fun p => p.2)

/-- The attribute names of the map. -/
def SchemaMap.keys (m : SchemaMap) : List String := m.map (fun p => p.1)

/-- The names of the element schema of a nested attribute, empty when the
attribute is missing or has no `Elem`. -/
def SchemaMap.elemKeys (m : SchemaMap) (k : String) : List String :=
  match m.lookup k with
  | some s => match s.Elem with
    | some e => SchemaMap.keys e
    | none => []
  | none => []

/-- The element schema of a nested attribute, empty when there is none. -/
def SchemaMap.elem (m : SchemaMap) (k : String) : SchemaMap :=
  match m.lookup k with
  | some s => s.Elem.getD []
  | none => []

/-- The entries of the element schemas of the map, in source order: the
attributes nested one level below the top. -/
def SchemaMap.nested (m : SchemaMap) : SchemaMap :=
  (m.map (fun p => p.2.Elem.getD [])).flatten

/-- Every attribute the schema declares: the top-level entries followed by the
entries of their element schemas. -/
def SchemaMap.allAttributes (m : SchemaMap) : SchemaMap :=
  m ++ m.nested

/-- The `Schema` field of the resource returned by `resourceAWSCredential`.
The other fields of the resource are the three handlers above and the
passthrough importer. -/
def resourceAWSCredential : SchemaMap :=
  [ ("vendor_account_name",
      Schema.mk ValueType.TypeString true false 0 none "The name given to your AWS account"),
    ("vendor_account_id",
      Schema.mk ValueType.TypeString true false 0 none
        "12 digit string corresponding to your AWS account ID"),
    ("vendor_key",
      Schema.mk ValueType.TypeString false true 0 none "'aws'"),
    ("verification",
      Schema.mk ValueType.TypeSet false true 1
        (some
          [ ("state",
              Schema.mk ValueType.TypeString true false 0 none
                "Examples: unverified, verified, error"),
            ("last_verification_attempted_at",
              Schema.mk ValueType.TypeString true false 0 none
                "Date timestamp, example: 1970-01-01T00:00:00.000Z"),
            ("message",
              Schema.mk ValueType.TypeString true false 0 none
                "Error message for credentials in error state") ])
        "Object containing details of verification state"),
    ("authorization",
      Schema.mk ValueType.TypeSet false true 1
        (some
          [ ("type",
              Schema.mk ValueType.TypeString true false 0 none "'aws_role' or 'aws_user'"),
            ("role_name",
              Schema.mk ValueType.TypeString true false 0 none
                "currently hardcoded to 'CloudabilityRole'"),
            ("external_id",
              Schema.mk ValueType.TypeString false true 0 none
                "The external ID used to prevent confused deputies. Generated by Cloudability") ])
        "Object contain vendor specific authorization details"),
    ("parent_account_id",
      Schema.mk ValueType.TypeString false true 0 none
        "12 digit string representing parent's account ID (if current cred is a linked account)"),
    ("created_at",
      Schema.mk ValueType.TypeString false true 0 none
        "Date timestamp corresponding to cloudability credential creation time") ]

/-! ## Concrete bags and vendor clients -/

/-- The record of the import scenario: credential 42 of account `prod`. -/
def prodCredential : Credential :=
  { Id := "42"
    VendorAccountName := "prod"
    VendorAccountId := "123456789012"
    VendorKey := "aws"
    Verification :=
      { State := "verified"
        LastVerificationAttemptedAt := "2021-03-01T00:00:05.000Z"
        Message := "" }
    Authorization :=
      { Type_ := "aws_role"
        RoleName := "CloudabilityRole"
        ExternalId := "ext-abc" }
    ParentAccountId := "210987654321"
    CreatedAt := "2021-03-01T00:00:00.000Z" }

/-- A root-account record: credential 7 with no parent account and empty
nested fields. -/
def rootCredential : Credential :=
  { Id := "7"
    VendorAccountName := "root"
    VendorAccountId := "210987654321"
    VendorKey := "aws"
    Verification := { State := "", LastVerificationAttemptedAt := "", Message := "" }
    Authorization := { Type_ := "", RoleName := "", ExternalId := "" }
    ParentAccountId := ""
    CreatedAt := "2020-01-01T00:00:00.000Z" }

/-- A bag with local ID `id` and no attribute set. -/
def bagWithId (id : String) : ResourceData :=
  { id := id, strings := fun _ => none, sets := fun _ => none }

/-- A bag with local ID `id` holding the attributes of the create scenario and
the vendor key. -/
def linkedBag (id : String) : ResourceData :=
  { id := id
    strings := fun k =>
      if k = "vendor_account_name" then some "prod"
      else if k = "vendor_account_id" then some "123456789012"
      else if k = "parent_account_id" then some "210987654321"
      else if k = "vendor_key" then some "aws"
      else none
    sets := fun _ => none }

/-- A remote service whose state is the number of credentials created so far.
It holds credential 7 from the start and credential 42 once a credential has
been created; every call succeeds. -/
def countingVendors : Vendors Nat :=
  { VerifyCredential := fun _ _ s => ((some rootCredential, none), s)
    NewCredential := fun _ _ _ s => ((some prodCredential, none), s + 1)
    GetCredential := fun _ id s =>
      if id = 7 then ((some rootCredential, none), s)
      else if id = 42 ∧ 0 < s then ((some prodCredential, none), s)
      else ((none, none), s)
    DeleteCredential := fun _ _ s => (none, s - 1) }

/-- The error of an unreachable or refusing vendor service. -/
def vendorDown : GoError := GoError.other "503 Service Unavailable"

/-- A remote service every call of which fails with `vendorDown`. -/
def failingVendors : Vendors Nat :=
  { VerifyCredential := fun _ _ s => ((none, some vendorDown), s)
    NewCredential := fun _ _ _ s => ((none, some vendorDown), s)
    GetCredential := fun _ _ s => ((none, some vendorDown), s)
    DeleteCredential := fun _ _ s => (some vendorDown, s) }

/-- The error of a verification the vendor refuses. -/
def verifyRefused : GoError := GoError.other "404 parent account not found"

/-- The service `countingVendors` except that verifying a credential fails with
`verifyRefused`. -/
def verifyFailingVendors : Vendors Nat :=
  { countingVendors with
    VerifyCredential := fun _ _ s => ((none, some verifyRefused), s) }

/-- The world before any vendor call, the remote service in state `s`. -/
def freshWorld (s : Nat) : World Nat := { vendor := s, calls := [] }

/-! ## Properties of the handlers and flatteners -/

/-- The value of Read when the local ID parses and the vendor returns a record:
the chain of `Set` calls of the source and one `GetCredential` call. -/
theorem read_record_eq {σ : Type} (client : Vendors σ) (d : ResourceData) (w : World σ)
    (n : Int) (r : Credential) (s : σ)
    (hid : Atoi d.Id = (n, none))
    (hget : client.GetCredential "aws" n w.vendor = ((some r, none), s)) :
    resourceAWSCredentialRead client d w =
      (none,
        (((((((d.Set "vendor_account_name" (AttrValue.str r.VendorAccountName)).Set
          "vendor_account_id" (AttrValue.str r.VendorAccountId)).Set
          "vendor_key" (AttrValue.str r.VendorKey)).Set
          "verification" (AttrValue.set (flattenVerification r.Verification))).Set
          "authorization" (AttrValue.set (flattenAuthorization r.Authorization))).Set
          "parent_account_id" (AttrValue.str r.ParentAccountId)).Set
          "created_at" (AttrValue.str r.CreatedAt)).SetId r.Id,
        { vendor := s, calls := w.calls ++ [Call.GetCredential "aws" n] }) := by
  simp only [resourceAWSCredentialRead, hid, hget]

/-- C1: when the local ID parses as the integer `n` and `GetCredential("aws", n)`
returns a record `r` without error, Read makes exactly that one vendor call,
returns no error, and leaves the bag with each top-level attribute equal to the
field of `r` (the parent account ID being set even when it is the empty
string), the two nested attributes equal to the one-element sequences the
flatteners produce, and the local ID equal to `r.Id`. -/
theorem read_projects_record {σ : Type} (client : Vendors σ) (d : ResourceData) (w : World σ)
    (n : Int) (r : Credential) (s : σ)
    (hid : Atoi d.Id = (n, none))
    (hget : client.GetCredential "aws" n w.vendor = ((some r, none), s)) :
    ∃ d' w', resourceAWSCredentialRead client d w = (none, d', w') ∧
      w'.calls = w.calls ++ [Call.GetCredential "aws" n] ∧
      w'.vendor = s ∧
      d'.strings "vendor_account_name" = some r.VendorAccountName ∧
      d'.strings "vendor_account_id" = some r.VendorAccountId ∧
      d'.strings "vendor_key" = some r.VendorKey ∧
      d'.strings "parent_account_id" = some r.ParentAccountId ∧
      d'.GetString "parent_account_id" = r.ParentAccountId ∧
      d'.strings "created_at" = some r.CreatedAt ∧
      d'.sets "verification" = some (flattenVerification r.Verification) ∧
      (flattenVerification r.Verification).length = 1 ∧
      d'.sets "authorization" = some (flattenAuthorization r.Authorization) ∧
      (flattenAuthorization r.Authorization).length = 1 ∧
      d'.Id = r.Id := by
  refine ⟨_, _, read_record_eq client d w n r s hid hget, ?_⟩
  simp [ResourceData.Set, ResourceData.SetId, ResourceData.Id, ResourceData.GetString,
    flattenVerification, flattenAuthorization]

/-- Witness of C1: the import scenario, local ID `"42"` on a service that holds
credential 42. -/
theorem read_projects_record_witness :
    Atoi (linkedBag "42").Id = (42, none) ∧
    countingVendors.GetCredential "aws" 42 (freshWorld 1).vendor = ((some prodCredential, none), 1) ∧
    ∃ d' w', resourceAWSCredentialRead countingVendors (linkedBag "42") (freshWorld 1) = (none, d', w') ∧
      w'.calls = (freshWorld 1).calls ++ [Call.GetCredential "aws" 42] ∧
      w'.vendor = 1 ∧
      d'.strings "vendor_account_name" = some prodCredential.VendorAccountName ∧
      d'.strings "vendor_account_id" = some prodCredential.VendorAccountId ∧
      d'.strings "vendor_key" = some prodCredential.VendorKey ∧
      d'.strings "parent_account_id" = some prodCredential.ParentAccountId ∧
      d'.GetString "parent_account_id" = prodCredential.ParentAccountId ∧
      d'.strings "created_at" = some prodCredential.CreatedAt ∧
      d'.sets "verification" = some (flattenVerification prodCredential.Verification) ∧
      (flattenVerification prodCredential.Verification).length = 1 ∧
      d'.sets "authorization" = some (flattenAuthorization prodCredential.Authorization) ∧
      (flattenAuthorization prodCredential.Authorization).length = 1 ∧
      d'.Id = prodCredential.Id :=
  ⟨by decide, rfl,
    read_projects_record countingVendors (linkedBag "42") (freshWorld 1) 42 prodCredential 1
      (by decide) rfl⟩

/-- C2: when the local ID parses as the integer `n` and `GetCredential("aws", n)`
returns no record and no error, Read returns no error, makes that one vendor
call, sets the local ID to the empty string and leaves every attribute
unchanged. -/
theorem read_absent_clears_id {σ : Type} (client : Vendors σ) (d : ResourceData) (w : World σ)
    (n : Int) (s : σ)
    (hid : Atoi d.Id = (n, none))
    (hget : client.GetCredential "aws" n w.vendor = ((none, none), s)) :
    ∃ d' w', resourceAWSCredentialRead client d w = (none, d', w') ∧
      d'.Id = "" ∧ d'.strings = d.strings ∧ d'.sets = d.sets ∧
      w'.calls = w.calls ++ [Call.GetCredential "aws" n] ∧ w'.vendor = s := by
  refine ⟨d.SetId "", { vendor := s, calls := w.calls ++ [Call.GetCredential "aws" n] }, ?_, ?_⟩
  · simp only [resourceAWSCredentialRead, hid, hget]
  · simp [ResourceData.SetId, ResourceData.Id]

/-- Witness of C2: local ID `"99"`, a credential the service does not hold. -/
theorem read_absent_clears_id_witness :
    Atoi (linkedBag "99").Id = (99, none) ∧
    countingVendors.GetCredential "aws" 99 (freshWorld 1).vendor = ((none, none), 1) ∧
    ∃ d' w', resourceAWSCredentialRead countingVendors (linkedBag "99") (freshWorld 1) = (none, d', w') ∧
      d'.Id = "" ∧ d'.strings = (linkedBag "99").strings ∧ d'.sets = (linkedBag "99").sets ∧
      w'.calls = (freshWorld 1).calls ++ [Call.GetCredential "aws" 99] ∧ w'.vendor = 1 :=
  ⟨by decide, rfl,
    read_absent_clears_id countingVendors (linkedBag "99") (freshWorld 1) 99 1 (by decide) rfl⟩

/-- An error of `Atoi` is a `*NumError` of function `"Atoi"` on the input. -/
theorem Atoi_error_shape (s : String) (e : GoError) (h : (Atoi s).2 = some e) :
    ∃ k, e = GoError.NumError "Atoi" s k := by
  unfold Atoi at h
  split at h
  · simp at h
  · rename_i n k _
    exact ⟨k, by simpa using h.symm⟩

/-- C3: when `Atoi` rejects the local ID with error `e`, Read returns `e`, which
is the parse error of the local ID, makes no vendor call and leaves the local
ID, every attribute and the remote service unchanged. -/
theorem read_malformed_id {σ : Type} (client : Vendors σ) (d : ResourceData) (w : World σ)
    (e : GoError) (hid : (Atoi d.Id).2 = some e) :
    resourceAWSCredentialRead client d w = (some e, d, w) ∧
      (∃ k, e = GoError.NumError "Atoi" d.Id k) := by
  refine ⟨?_, Atoi_error_shape d.Id e hid⟩
  rcases h : Atoi d.Id with ⟨n, err⟩
  rw [h] at hid
  simp only at hid
  subst hid
  simp only [resourceAWSCredentialRead, h]

/-- Witness of C3: the local ID `"not-a-number"`. -/
theorem read_malformed_id_witness :
    (Atoi (bagWithId "not-a-number").Id).2
        = some (GoError.NumError "Atoi" "not-a-number" NumErrKind.ErrSyntax) ∧
    resourceAWSCredentialRead countingVendors (bagWithId "not-a-number") (freshWorld 1)
        = (some (GoError.NumError "Atoi" "not-a-number" NumErrKind.ErrSyntax),
            bagWithId "not-a-number", freshWorld 1) :=
  ⟨by decide,
    (read_malformed_id countingVendors (bagWithId "not-a-number") (freshWorld 1)
      (GoError.NumError "Atoi" "not-a-number" NumErrKind.ErrSyntax) (by decide)).1⟩

/-- C9: when the local ID parses as the integer `n` and `GetCredential("aws", n)`
returns an error `e`, Read returns `e` and leaves the local ID and every
attribute unchanged, whatever record pointer came with the error. -/
theorem read_vendor_error {σ : Type} (client : Vendors σ) (d : ResourceData) (w : World σ)
    (n : Int) (c : Option Credential) (e : GoError) (s : σ)
    (hid : Atoi d.Id = (n, none))
    (hget : client.GetCredential "aws" n w.vendor = ((c, some e), s)) :
    resourceAWSCredentialRead client d w
      = (some e, d, { vendor := s, calls := w.calls ++ [Call.GetCredential "aws" n] }) := by
  simp only [resourceAWSCredentialRead, hid, hget]

/-- Witness of C9: local ID `"42"` on a service whose every call fails. -/
theorem read_vendor_error_witness :
    Atoi (linkedBag "42").Id = (42, none) ∧
    failingVendors.GetCredential "aws" 42 (freshWorld 1).vendor = ((none, some vendorDown), 1) ∧
    resourceAWSCredentialRead failingVendors (linkedBag "42") (freshWorld 1)
      = (some vendorDown, linkedBag "42",
          { vendor := 1, calls := (freshWorld 1).calls ++ [Call.GetCredential "aws" 42] }) :=
  ⟨by decide, rfl,
    read_vendor_error failingVendors (linkedBag "42") (freshWorld 1) 42 none vendorDown 1
      (by decide) rfl⟩

/-- C6: Delete makes exactly one vendor call, `DeleteCredential(v, id)` with `v`
the `vendor_key` attribute and `id` the raw local ID string, returns exactly
the error (or nil) of that call, and leaves the local ID and every attribute
unchanged. -/
theorem delete_forwards (σ : Type) (client : Vendors σ) (d : ResourceData) (w : World σ) :
    resourceAWSCredentialDelete client d w
      = ((client.DeleteCredential (d.GetString "vendor_key") d.Id w.vendor).1, d,
          { vendor := (client.DeleteCredential (d.GetString "vendor_key") d.Id w.vendor).2,
            calls := w.calls ++ [Call.DeleteCredential (d.GetString "vendor_key") d.Id] }) := by
  rfl

/-- C7: both flatteners return, for every input, a sequence of length one whose
single mapping has exactly the three keys of the record, each holding the
field verbatim; this includes the records whose fields are all empty. -/
theorem flatten_singleton (v : Verification) (a : Authorization) :
    (∃ m, flattenVerification v = [m] ∧ (flattenVerification v).length = 1 ∧
      m.keys.length = 3 ∧ m.keys.Nodup ∧
      (∀ k, k ∈ m.keys ↔
        k = "state" ∨ k = "last_verification_attempted_at" ∨ k = "message") ∧
      m.get? "state" = some v.State ∧
      m.get? "last_verification_attempted_at" = some v.LastVerificationAttemptedAt ∧
      m.get? "message" = some v.Message) ∧
    (∃ m, flattenAuthorization a = [m] ∧ (flattenAuthorization a).length = 1 ∧
      m.keys.length = 3 ∧ m.keys.Nodup ∧
      (∀ k, k ∈ m.keys ↔ k = "type" ∨ k = "role_name" ∨ k = "external_id") ∧
      m.get? "type" = some a.Type_ ∧
      m.get? "role_name" = some a.RoleName ∧
      m.get? "external_id" = some a.ExternalId) ∧
    flattenVerification { State := "", LastVerificationAttemptedAt := "", Message := "" }
      = [[("state", ""), ("last_verification_attempted_at", ""), ("message", "")]] ∧
    flattenAuthorization { Type_ := "", RoleName := "", ExternalId := "" }
      = [[("type", ""), ("role_name", ""), ("external_id", "")]] := by
  refine ⟨⟨[("state", v.State),
      ("last_verification_attempted_at", v.LastVerificationAttemptedAt),
      ("message", v.Message)], rfl, rfl, rfl, by simp [GoMap.keys], ?_, rfl, rfl, rfl⟩,
    ⟨[("type", a.Type_), ("role_name", a.RoleName), ("external_id", a.ExternalId)],
      rfl, rfl, rfl, by simp [GoMap.keys], ?_, rfl, rfl, rfl⟩, rfl, rfl⟩
  · intro k; simp [GoMap.keys]
  · intro k; simp [GoMap.keys]

/-- C8 as stated fails on the code: read over every attribute the schema
declares, `vendor_account_name` and `vendor_account_id` are not the only
required ones, since the key `state` of the element schema of `verification`
is declared `Required: true` (as are four more nested keys). -/
theorem schema_required_not_only_top_level :
    ¬ (∀ p ∈ resourceAWSCredential.allAttributes,
        (p.2.Required = true ↔ p.1 ∈ ["vendor_account_name", "vendor_account_id"])) ∧
    (resourceAWSCredential.elem "verification").lookup "state"
      = some (Schema.mk ValueType.TypeString true false 0 none
          "Examples: unverified, verified, error") ∧
    (resourceAWSCredential.nested.filter (fun p => p.2.Required)).map (fun p => p.1)
      = ["state", "last_verification_attempted_at", "message", "type", "role_name"] := by
  refine ⟨by decide, by rfl, by decide⟩

/-- C8 amended: among the top-level attributes of the schema, exactly
`vendor_account_name` and `vendor_account_id` are required, and they are not
computed; `vendor_key`, `parent_account_id`, `created_at`, `verification` and
`authorization` are computed and not required; `verification` and
`authorization` are the only nested sets, each with `MaxItems = 1`; their
element schemas have exactly the keys `state`, `last_verification_attempted_at`,
`message` and `type`, `role_name`, `external_id`, all of type string and none
nested further; each flattener returns one mapping and its keys are exactly the
keys of the element schema.  Inside the element schemas, `state`,
`last_verification_attempted_at`, `message`, `type` and `role_name` are required
and not computed, and `external_id` is computed and not required. -/
theorem schema_shape (v : Verification) (a : Authorization) :
    resourceAWSCredential.keys.Nodup ∧
    resourceAWSCredential.keys
      = ["vendor_account_name", "vendor_account_id", "vendor_key", "verification",
          "authorization", "parent_account_id", "created_at"] ∧
    (∀ p ∈ resourceAWSCredential,
      (p.2.Required = true ↔ p.1 ∈ ["vendor_account_name", "vendor_account_id"])) ∧
    (∀ k ∈ ["vendor_account_name", "vendor_account_id"],
      (resourceAWSCredential.lookup k).map (fun s => (s.Required, s.Computed))
        = some (true, false)) ∧
    (∀ k ∈ ["vendor_key", "parent_account_id", "created_at", "verification", "authorization"],
      (resourceAWSCredential.lookup k).map (fun s => (s.Required, s.Computed))
        = some (false, true)) ∧
    (∀ p ∈ resourceAWSCredential,
      (p.2.Type_ = ValueType.TypeSet ↔ p.1 ∈ ["verification", "authorization"])) ∧
    (∀ p ∈ resourceAWSCredential,
      (p.2.Elem.isSome = true ↔ p.1 ∈ ["verification", "authorization"])) ∧
    (∀ k ∈ ["verification", "authorization"],
      (resourceAWSCredential.lookup k).map (fun s => s.MaxItems) = some 1) ∧
    (resourceAWSCredential.elemKeys "verification").Nodup ∧
    (resourceAWSCredential.elemKeys "authorization").Nodup ∧
    (∀ k, k ∈ resourceAWSCredential.elemKeys "verification" ↔
      k = "state" ∨ k = "last_verification_attempted_at" ∨ k = "message") ∧
    (∀ k, k ∈ resourceAWSCredential.elemKeys "authorization" ↔
      k = "type" ∨ k = "role_name" ∨ k = "external_id") ∧
    (∀ p ∈ resourceAWSCredential.nested,
      p.2.Type_ = ValueType.TypeString ∧ p.2.Elem.isNone = true) ∧
    resourceAWSCredential.nested
      = resourceAWSCredential.elem "verification" ++ resourceAWSCredential.elem "authorization" ∧
    (∀ p ∈ resourceAWSCredential.elem "verification",
      p.2.Required = true ∧ p.2.Computed = false) ∧
    (∀ p ∈ resourceAWSCredential.elem "authorization",
      (p.2.Required = true ↔ p.1 ∈ ["type", "role_name"]) ∧
      (p.2.Computed = true ↔ p.1 = "external_id") ∧
      (p.2.Required = true ↔ p.2.Computed = false)) ∧
    (flattenVerification v).map GoMap.keys = [resourceAWSCredential.elemKeys "verification"] ∧
    (flattenAuthorization a).map GoMap.keys = [resourceAWSCredential.elemKeys "authorization"] ∧
    (∃ m, flattenVerification v = [m] ∧ m.keys.Nodup ∧
      ∀ k, k ∈ m.keys ↔ k ∈ resourceAWSCredential.elemKeys "verification") ∧
    (∃ m, flattenAuthorization a = [m] ∧ m.keys.Nodup ∧
      ∀ k, k ∈ m.keys ↔ k ∈ resourceAWSCredential.elemKeys "authorization") := by
  have hv : resourceAWSCredential.elemKeys "verification"
      = ["state", "last_verification_attempted_at", "message"] := by decide
  have ha : resourceAWSCredential.elemKeys "authorization"
      = ["type", "role_name", "external_id"] := by decide
  have fv : flattenVerification v = [[("state", v.State),
      ("last_verification_attempted_at", v.LastVerificationAttemptedAt),
      ("message", v.Message)]] := rfl
  have fa : flattenAuthorization a = [[("type", a.Type_), ("role_name", a.RoleName),
      ("external_id", a.ExternalId)]] := rfl
  refine ⟨by decide, by decide, by decide, by decide, by decide, by decide, by decide,
    by decide, by decide, by decide, ?_, ?_, by decide, by rfl, by decide, by decide,
    ?_, ?_, ?_, ?_⟩
  · intro k; rw [hv]; simp
  · intro k; rw [ha]; simp
  · rw [hv, fv]; rfl
  · rw [ha, fa]; rfl
  · exact ⟨_, fv, by simp [GoMap.keys], fun k => by rw [hv]; simp [GoMap.keys]⟩
  · exact ⟨_, fa, by simp [GoMap.keys], fun k => by rw [ha]; simp [GoMap.keys]⟩

/-- The vendor calls of Read: none, or one `GetCredential` on vendor `"aws"`. -/
theorem read_calls {σ : Type} (client : Vendors σ) (d : ResourceData) (w : World σ) :
    ∃ rest, (resourceAWSCredentialRead client d w).2.2.calls = w.calls ++ rest ∧
      rest.length ≤ 1 ∧ ∀ c ∈ rest, ∃ n, c = Call.GetCredential "aws" n := by
  rcases h : Atoi d.Id with ⟨n, _ | e⟩
  · rcases hg : client.GetCredential "aws" n w.vendor with ⟨⟨_ | r, _ | e⟩, s⟩ <;>
      exact ⟨[Call.GetCredential "aws" n],
        by simp only [resourceAWSCredentialRead, h, hg], by simp, by simp⟩
  · exact ⟨[], by simp only [resourceAWSCredentialRead, h, List.append_nil], by simp, by simp⟩

/-- C5: Create makes one `VerifyCredential(vendor_key, parent_account_id)` call,
then one `NewCredential(vendor_key, vendor_account_id, "aws_role")` call, the
arguments read from the bag.  When `NewCredential` returns no error, Create
then is Read on the unchanged bag (same result, same final bag), so that its
remaining vendor calls are those of Read; when `NewCredential` returns an error
`e`, Create returns `e` with the bag unchanged and no further vendor call. -/
theorem create_verifies_creates_reads {σ : Type} (client : Vendors σ) (d : ResourceData)
    (w : World σ) (r1 : Option Credential × Option GoError) (s1 : σ)
    (c2 : Option Credential) (s2 : σ)
    (hverify : client.VerifyCredential (d.GetString "vendor_key")
      (d.GetString "parent_account_id") w.vendor = (r1, s1)) :
    (client.NewCredential (d.GetString "vendor_key") (d.GetString "vendor_account_id")
        "aws_role" s1 = ((c2, none), s2) →
      resourceAWSCredentialCreate client d w
        = resourceAWSCredentialRead client d
            { vendor := s2
              calls := w.calls ++
                [Call.VerifyCredential (d.GetString "vendor_key")
                    (d.GetString "parent_account_id"),
                  Call.NewCredential (d.GetString "vendor_key")
                    (d.GetString "vendor_account_id") "aws_role"] } ∧
      ∃ rest, (resourceAWSCredentialCreate client d w).2.2.calls
          = w.calls ++
            [Call.VerifyCredential (d.GetString "vendor_key")
                (d.GetString "parent_account_id"),
              Call.NewCredential (d.GetString "vendor_key")
                (d.GetString "vendor_account_id") "aws_role"] ++ rest ∧
        rest.length ≤ 1 ∧ ∀ c ∈ rest, ∃ n, c = Call.GetCredential "aws" n) ∧
    (∀ e, client.NewCredential (d.GetString "vendor_key") (d.GetString "vendor_account_id")
        "aws_role" s1 = ((c2, some e), s2) →
      resourceAWSCredentialCreate client d w
        = (some e, d,
            { vendor := s2
              calls := w.calls ++
                [Call.VerifyCredential (d.GetString "vendor_key")
                    (d.GetString "parent_account_id"),
                  Call.NewCredential (d.GetString "vendor_key")
                    (d.GetString "vendor_account_id") "aws_role"] })) := by
  constructor
  · intro hnew
    have h : resourceAWSCredentialCreate client d w
        = resourceAWSCredentialRead client d
            { vendor := s2
              calls := w.calls ++
                [Call.VerifyCredential (d.GetString "vendor_key")
                    (d.GetString "parent_account_id"),
                  Call.NewCredential (d.GetString "vendor_key")
                    (d.GetString "vendor_account_id") "aws_role"] } := by
      simp only [resourceAWSCredentialCreate, hverify, hnew, List.append_assoc,
        List.singleton_append]
    refine ⟨h, ?_⟩
    rw [h]
    exact read_calls client d _
  · intro e hnew
    simp only [resourceAWSCredentialCreate, hverify, hnew, List.append_assoc,
      List.singleton_append]

/-- Witness of C5: the create scenario on a service that accepts the new
credential, and on one that refuses it. -/
theorem create_verifies_creates_reads_witness :
    (countingVendors.VerifyCredential ((linkedBag "42").GetString "vendor_key")
        ((linkedBag "42").GetString "parent_account_id") (freshWorld 0).vendor
        = ((some rootCredential, none), 0) ∧
      countingVendors.NewCredential ((linkedBag "42").GetString "vendor_key")
        ((linkedBag "42").GetString "vendor_account_id") "aws_role" 0
        = ((some prodCredential, none), 1) ∧
      resourceAWSCredentialCreate countingVendors (linkedBag "42") (freshWorld 0)
        = resourceAWSCredentialRead countingVendors (linkedBag "42")
            { vendor := 1
              calls := [Call.VerifyCredential "aws" "210987654321",
                Call.NewCredential "aws" "123456789012" "aws_role"] }) ∧
    (failingVendors.VerifyCredential ((linkedBag "42").GetString "vendor_key")
        ((linkedBag "42").GetString "parent_account_id") (freshWorld 0).vendor
        = ((none, some vendorDown), 0) ∧
      failingVendors.NewCredential ((linkedBag "42").GetString "vendor_key")
        ((linkedBag "42").GetString "vendor_account_id") "aws_role" 0
        = ((none, some vendorDown), 0) ∧
      resourceAWSCredentialCreate failingVendors (linkedBag "42") (freshWorld 0)
        = (some vendorDown, linkedBag "42",
            { vendor := 0
              calls := [Call.VerifyCredential "aws" "210987654321",
                Call.NewCredential "aws" "123456789012" "aws_role"] })) :=
  ⟨⟨rfl, rfl,
      ((create_verifies_creates_reads countingVendors (linkedBag "42") (freshWorld 0)
        (some rootCredential, none) 0 (some prodCredential) 1 rfl).1 rfl).1⟩,
    ⟨rfl, rfl,
      (create_verifies_creates_reads failingVendors (linkedBag "42") (freshWorld 0)
        (none, some vendorDown) 0 none 0 rfl).2 vendorDown rfl⟩⟩

/-- C10: Create does not take the local ID from the result of `NewCredential`.
When `Atoi` rejects the local ID with error `e` (as it does for the empty ID of
a resource not created yet) and `NewCredential` returns no error, Create
returns the parse error `e`, its vendor calls are the verification and the
creation only, with no `GetCredential`, and the local ID and every attribute
are left as they were, although the remote service has created the
credential. -/
theorem create_unparseable_id {σ : Type} (client : Vendors σ) (d : ResourceData)
    (w : World σ) (r1 : Option Credential × Option GoError) (s1 : σ)
    (c2 : Option Credential) (s2 : σ) (e : GoError)
    (hid : (Atoi d.Id).2 = some e)
    (hverify : client.VerifyCredential (d.GetString "vendor_key")
      (d.GetString "parent_account_id") w.vendor = (r1, s1))
    (hnew : client.NewCredential (d.GetString "vendor_key") (d.GetString "vendor_account_id")
      "aws_role" s1 = ((c2, none), s2)) :
    resourceAWSCredentialCreate client d w
      = (some e, d,
          { vendor := s2
            calls := w.calls ++
              [Call.VerifyCredential (d.GetString "vendor_key")
                  (d.GetString "parent_account_id"),
                Call.NewCredential (d.GetString "vendor_key")
                  (d.GetString "vendor_account_id") "aws_role"] }) ∧
      (∃ k, e = GoError.NumError "Atoi" d.Id k) := by
  refine ⟨?_, Atoi_error_shape d.Id e hid⟩
  rcases h : Atoi d.Id with ⟨n, err⟩
  rw [h] at hid
  simp only at hid
  subst hid
  simp only [resourceAWSCredentialCreate, hverify, hnew, resourceAWSCredentialRead, h,
    List.append_assoc, List.singleton_append]

/-- Witness of C10: a resource not created yet, with the empty local ID, on a
service that accepts the new credential. -/
theorem create_unparseable_id_witness :
    (Atoi (linkedBag "").Id).2 = some (GoError.NumError "Atoi" "" NumErrKind.ErrSyntax) ∧
    countingVendors.NewCredential ((linkedBag "").GetString "vendor_key")
        ((linkedBag "").GetString "vendor_account_id") "aws_role" 0
        = ((some prodCredential, none), 1) ∧
    resourceAWSCredentialCreate countingVendors (linkedBag "") (freshWorld 0)
      = (some (GoError.NumError "Atoi" "" NumErrKind.ErrSyntax), linkedBag "",
          { vendor := 1
            calls := [Call.VerifyCredential "aws" "210987654321",
              Call.NewCredential "aws" "123456789012" "aws_role"] }) :=
  ⟨by decide, rfl,
    (create_unparseable_id countingVendors (linkedBag "") (freshWorld 0)
      (some rootCredential, none) 0 (some prodCredential) 1
      (GoError.NumError "Atoi" "" NumErrKind.ErrSyntax) (by decide) rfl rfl).1⟩

/-- C4 fails on the code for `VerifyCredential`, whose result Create discards.
On a service whose verification fails with `verifyRefused` and whose other
calls succeed, Create of a bag with local ID `"42"` makes the three vendor
calls and returns no error; with the empty local ID it returns the parse error
of Read.  In neither case is the error of the verification returned. -/
theorem create_drops_verify_error :
    (verifyFailingVendors.VerifyCredential ((linkedBag "42").GetString "vendor_key")
        ((linkedBag "42").GetString "parent_account_id") (freshWorld 0).vendor).1.2
      = some verifyRefused ∧
    (resourceAWSCredentialCreate verifyFailingVendors (linkedBag "42") (freshWorld 0)).1
      = none ∧
    (resourceAWSCredentialCreate verifyFailingVendors (linkedBag "42") (freshWorld 0)).2.2.calls
      = [Call.VerifyCredential "aws" "210987654321",
          Call.NewCredential "aws" "123456789012" "aws_role",
          Call.GetCredential "aws" 42] ∧
    (resourceAWSCredentialCreate verifyFailingVendors (linkedBag "") (freshWorld 0)).1
      = some (GoError.NumError "Atoi" "" NumErrKind.ErrSyntax) := by
  refine ⟨rfl, ?_, ?_, ?_⟩ <;> decide

end Cloudability
